import Mathlib

/-!
Verification of the CNC discovery-and-session layer (`src-tauri/src/cnc_comm.rs`).

The Rust code is shallowly embedded: pure computations become Lean functions;
every interaction with the operating system (socket connect, read, write, bind,
address parsing) is represented by an explicit environment/oracle value that
records the outcome the OS would have produced, so each Rust function becomes a
pure Lean function of its inputs and its environment.  Machine integers (`u16`,
`u32`) are modelled as `Nat` (no arithmetic on them overflows in this code).
`anyhow::Result` becomes `Except CncError`.
-/

namespace CncComm

/-- Contiguous-sublist test on character lists. -/
def listInfix (pat : List Char) : List Char → Bool
  | [] => pat.isPrefixOf ([] : List Char)
  | c :: rest => pat.isPrefixOf (c :: rest) || listInfix pat rest

/-- Rust `str::contains`: `pat` occurs as a contiguous substring of `s`. -/
def strContains (s pat : String) : Bool :=
  listInfix pat.toList s.toList

/-- Mirrors Rust `struct CncDevice` (cnc_comm.rs lines 7-14). -/
structure CncDevice where
  name : String
  ip : String
  port : Nat
  mac : Option String
  firmware : Option String
deriving Repr, DecidableEq

/-- Mirrors Rust `struct CncConnection` (cnc_comm.rs lines 16-20). -/
structure CncConnection where
  device : CncDevice
  connected : Bool
deriving Repr, DecidableEq

/-- Mirrors Rust `struct GenmitsuBroadcast` (cnc_comm.rs lines 23-30): fields
`ip: String`, `port: u16`, `name: String`, `mac: Option<String>` with
`#[serde(default)]` on `mac` only. -/
structure GenmitsuBroadcast where
  ip : String
  port : Nat
  name : String
  mac : Option String
deriving Repr, DecidableEq

/-- The error values the Rust code produces through `anyhow` / `std::io`. -/
inductive CncError where
  /-- `anyhow!("Not connected to any device")` from `send_command`. -/
  | notConnected
  /-- a propagated `std::io::Error` (connect, bind, set-timeout, write, read). -/
  | ioError (msg : String)
  /-- `addr.parse()?`: the `ip:port` text did not parse as a socket address. -/
  | addrParse (addr : String)
  /-- `anyhow!("Connection failed: ...")` from `probe_device`. -/
  | connectionFailed (msg : String)
  /-- `anyhow!("Not a CNC device - unexpected response: ...")`, carrying the raw reply. -/
  | notACnc (response : String)
deriving Repr, DecidableEq

/-- Model of a connected `TcpStream`.  `written` logs every payload passed to a
successful `write_all`, oldest first, as a string of bytes.  The two queues are
the oracle for the outcomes of successive `write_all` and `read` calls on this
stream: a write outcome of `none` is success, `some e` is an I/O error; an
exhausted read queue stands for a read that times out. -/
structure TcpStreamModel where
  written : List String
  writeOutcomes : List (Option String)
  readOutcomes : List (Except String String)
deriving Repr

/-- One `stream.write_all(bytes)` call: returns the I/O outcome and the stream
afterwards; the payload is logged only when the write succeeds. -/
def TcpStreamModel.writeAll (s : TcpStreamModel) (bytes : String) :
    Except String Unit × TcpStreamModel :=
  match s.writeOutcomes with
  | [] => (Except.ok (), { s with written := s.written ++ [bytes] })
  | none :: rest =>
      (Except.ok (), { s with written := s.written ++ [bytes], writeOutcomes := rest })
  | some e :: rest => (Except.error e, { s with writeOutcomes := rest })

/-- One `stream.read(&mut buffer)` call: returns the bytes read (as a string)
or the I/O error, and the stream afterwards. -/
def TcpStreamModel.readOnce (s : TcpStreamModel) :
    Except String String × TcpStreamModel :=
  match s.readOutcomes with
  | [] => (Except.error "read timed out", s)
  | o :: rest => (o, { s with readOutcomes := rest })

/-- Index of the first occurrence of `pat` in `l` (Rust `str::find`), if any. -/
def firstIdxOf (pat : List Char) : List Char → Option Nat
  | [] => if pat.isPrefixOf ([] : List Char) then some 0 else none
  | c :: rest =>
      if pat.isPrefixOf (c :: rest) then some 0
      else (firstIdxOf pat rest).map (· + 1)

/-- Mirrors `CncManager::extract_firmware_info` (cnc_comm.rs lines 250-257):
the substring starting at the first `"Grbl"` up to (excluding) the next
newline; `None` when either search fails. -/
def extract_firmware_info (response : String) : Option String :=
  let cs := response.toList
  match firstIdxOf "Grbl".toList cs with
  | none => none
  | some start =>
      let tail := cs.drop start
      match firstIdxOf ['\n'] tail with
      | none => none
      | some e => some (String.mk (tail.take e))

/-- Environment for one `probe_device` call: the outcomes the OS produces for
the address parse, the TCP connect, the two set-timeout calls, and the two
reads (the reply to `"?\n"` and the reply to `"$I\n"`).  The write outcomes
are irrelevant to the result: both probe writes discard their `Result`. -/
structure ProbeEnv where
  addrParses : Bool
  connectOutcome : Except String Unit
  setReadTimeoutOk : Bool
  setWriteTimeoutOk : Bool
  firstRead : Except String String
  secondRead : Except String String
deriving Repr

/-- The Grbl-reply classification test of `probe_device` (cnc_comm.rs lines
219-221): the reply contains one of the five literal markers. -/
def hasMarker (response : String) : Bool :=
  strContains response "Idle" || strContains response "Alarm" ||
  strContains response "Run" || strContains response "MPos" ||
  strContains response "VER:"

/-- Mirrors `CncManager::probe_device` (cnc_comm.rs lines 196-247).  A failed
first read leaves `response` empty (the code ignores the read error); a reply
with a marker yields a device at the probed `ip`/`port`; a reply without one is
the `notACnc` error carrying the raw reply.  Firmware enrichment runs only when
the reply contains `"VER:"`. -/
def probe_device (env : ProbeEnv) (ip : String) (port : Nat) :
    Except CncError CncDevice :=
  if env.addrParses = false then
    Except.error (CncError.addrParse (ip ++ ":" ++ toString port))
  else
    match env.connectOutcome with
    | Except.error e => Except.error (CncError.connectionFailed e)
    | Except.ok _ =>
        if env.setReadTimeoutOk = false then
          Except.error (CncError.ioError "set_read_timeout failed")
        else if env.setWriteTimeoutOk = false then
          Except.error (CncError.ioError "set_write_timeout failed")
        else
          let response := match env.firstRead with
            | Except.ok s => s
            | Except.error _ => ""
          if hasMarker response then
            let firmware :=
              if strContains response "VER:" then
                match env.secondRead with
                | Except.ok s => extract_firmware_info s
                | Except.error _ => none
              else none
            Except.ok
              { name := "CNC at " ++ ip, ip := ip, port := port,
                mac := none, firmware := firmware }
          else
            Except.error (CncError.notACnc response)

/-- JSON values, as delivered by `serde_json`'s text-level parser.  Number
payloads in the announcements are integers, so numbers are modelled as `Int`
(a fractional number would be rejected by the `u16` field anyway). -/
inductive Json where
  | str (s : String)
  | num (n : Int)
  | jbool (b : Bool)
  | null
  | arr (xs : List Json)
  | obj (fields : List (String × Json))

/-- Field lookup in a JSON object (first binding wins). -/
def getField (fields : List (String × Json)) (k : String) : Option Json :=
  match fields with
  | [] => none
  | (k', v) :: rest => if k' == k then some v else getField rest k

/-- Serde-derive deserialization of `GenmitsuBroadcast` from a JSON value:
`ip`/`name` must be strings, `port` must be a JSON number in `u16` range (a
string port is a type error), `mac` is optional with default `None` (absent or
`null` gives `None`); unknown fields such as `uuid` are ignored. -/
def decodeBroadcast (j : Json) : Except String GenmitsuBroadcast :=
  match j with
  | Json.obj fields =>
      match getField fields "ip" with
      | some (Json.str ip) =>
          (match getField fields "port" with
           | some (Json.num n) =>
               if 0 ≤ n ∧ n < 65536 then
                 (match getField fields "name" with
                  | some (Json.str name) =>
                      (match getField fields "mac" with
                       | none => Except.ok ⟨ip, n.toNat, name, none⟩
                       | some Json.null => Except.ok ⟨ip, n.toNat, name, none⟩
                       | some (Json.str m) => Except.ok ⟨ip, n.toNat, name, some m⟩
                       | some _ => Except.error "invalid type for field mac")
                  | some _ => Except.error "invalid type for field name"
                  | none => Except.error "missing field name")
               else Except.error "invalid value for field port: out of range of u16"
           | some _ => Except.error "invalid type for field port"
           | none => Except.error "missing field port")
      | some _ => Except.error "invalid type for field ip"
      | none => Except.error "missing field ip"
  | _ => Except.error "invalid type: expected struct GenmitsuBroadcast"

/-- One iteration's worth of input to the `udp_discovery_fallback` receive loop
(cnc_comm.rs lines 94-125).  The list of events models everything the socket
delivers within the time budget; exhausting the list models the budget
elapsing.  UTF-8 decoding and JSON text parsing are standard-library steps, so
a datagram is carried at the stage the repository's own logic first inspects
it. -/
inductive RecvEvent where
  /-- `recv_from` returned an error; `timedOut` tells whether its kind is
  `ErrorKind::TimedOut` (which breaks the loop; other errors are ignored). -/
  | recvFail (timedOut : Bool)
  /-- a datagram whose bytes are not valid UTF-8 (`str::from_utf8` fails). -/
  | nonUtf8Datagram
  /-- a datagram that is valid UTF-8 but not well-formed JSON text. -/
  | malformedJson
  /-- a well-formed JSON datagram; `penv` is the network behaviour the probe of
  the announced candidate would observe. -/
  | jsonDatagram (j : Json) (penv : ProbeEnv)

/-- The body of the `udp_discovery_fallback` receive loop: decode each
datagram as a `GenmitsuBroadcast`, probe the announced candidate, keep it with
the broadcast's `name` and `mac` on success; skip every failure. -/
def processEvents : List RecvEvent → List CncDevice
  | [] => []
  | RecvEvent.recvFail true :: _ => []
  | RecvEvent.recvFail false :: rest => processEvents rest
  | RecvEvent.nonUtf8Datagram :: rest => processEvents rest
  | RecvEvent.malformedJson :: rest => processEvents rest
  | RecvEvent.jsonDatagram j penv :: rest =>
      match decodeBroadcast j with
      | Except.error _ => processEvents rest
      | Except.ok b =>
          match probe_device penv b.ip b.port with
          | Except.error _ => processEvents rest
          | Except.ok d =>
              { d with name := b.name, mac := b.mac } :: processEvents rest

/-- Environment for one `udp_discovery_fallback` call: outcomes of
`get_local_ip_address`, `UdpSocket::bind` and `set_read_timeout` (each `some e`
is an I/O error), then the sequence of receive-loop events. -/
structure UdpEnv where
  localIpOutcome : Except String String
  bindOutcome : Option String
  setTimeoutOutcome : Option String
  events : List RecvEvent

/-- Mirrors `CncManager::udp_discovery_fallback` (cnc_comm.rs lines 82-128):
setup failures propagate as errors; once the socket is listening, every
per-datagram failure is skipped and the verified devices are returned. -/
def udp_discovery_fallback (env : UdpEnv) : Except CncError (List CncDevice) :=
  match env.localIpOutcome with
  | Except.error e => Except.error (CncError.ioError e)
  | Except.ok _ =>
      match env.bindOutcome with
      | some e => Except.error (CncError.ioError e)
      | none =>
          match env.setTimeoutOutcome with
          | some e => Except.error (CncError.ioError e)
          | none => Except.ok (processEvents env.events)

/-- Observable discovery actions, in the order `discover_devices` takes them. -/
inductive DiscEvent where
  /-- the direct TCP probe of the fixed address `192.168.86.23:10086`. -/
  | probeDirect
  /-- the UDP broadcast-discovery fallback pass. -/
  | udpDiscovery
deriving Repr, DecidableEq

/-- Environment for one `discover_devices` call. -/
structure DiscoverEnv where
  directProbeEnv : ProbeEnv
  udpEnv : UdpEnv

/-- Mirrors `CncManager::discover_devices` (cnc_comm.rs lines 46-79), paired
with the trace of discovery actions it performs: it always probes the fixed
address `192.168.86.23:10086` first; on success that single device (renamed
`"Genmitsu CNC (Direct)"`) is returned and UDP discovery never runs; on probe
failure the UDP fallback runs, its own failure yielding the empty list.  The
result is always `ok`. -/
def discover_devices (env : DiscoverEnv) :
    Except CncError (List CncDevice) × List DiscEvent :=
  match probe_device env.directProbeEnv "192.168.86.23" 10086 with
  | Except.ok device =>
      (Except.ok [{ device with name := "Genmitsu CNC (Direct)" }],
       [DiscEvent.probeDirect])
  | Except.error _ =>
      match udp_discovery_fallback env.udpEnv with
      | Except.ok udpDevices =>
          (Except.ok udpDevices, [DiscEvent.probeDirect, DiscEvent.udpDiscovery])
      | Except.error _ =>
          (Except.ok [], [DiscEvent.probeDirect, DiscEvent.udpDiscovery])

/-- Mirrors Rust `struct CncManager` (cnc_comm.rs lines 32-35): the optional
live stream and the optional device it was opened against. -/
structure CncManager where
  current_connection : Option TcpStreamModel
  device_info : Option CncDevice

/-- Mirrors `CncManager::new` (cnc_comm.rs lines 38-43). -/
def CncManager.new : CncManager :=
  { current_connection := none, device_info := none }

/-- Mirrors `CncManager::send_command` (cnc_comm.rs lines 281-294): with no
connection, the `notConnected` error; otherwise one write of the command with
a newline appended, then one read, returning the trimmed reply.  Write and
read I/O failures propagate as `ioError`; the connection is kept either way. -/
def CncManager.send_command (m : CncManager) (command : String) :
    Except CncError String × CncManager :=
  match m.current_connection with
  | none => (Except.error CncError.notConnected, m)
  | some stream =>
      match (stream.writeAll (command ++ "\n")).1 with
      | Except.error e =>
          (Except.error (CncError.ioError e),
           { m with current_connection := some (stream.writeAll (command ++ "\n")).2 })
      | Except.ok _ =>
          match ((stream.writeAll (command ++ "\n")).2.readOnce).1 with
          | Except.error e =>
              (Except.error (CncError.ioError e),
               { m with current_connection := some ((stream.writeAll (command ++ "\n")).2.readOnce).2 })
          | Except.ok response =>
              (Except.ok response.trim,
               { m with current_connection := some ((stream.writeAll (command ++ "\n")).2.readOnce).2 })

/-- Environment for one `CncManager::connect` call: the outcome of
`addr.parse()`, of `TcpStream::connect_timeout` (on success, the fresh stream
with its oracle for the handshake and later traffic), and of the two
set-timeout calls (`some e` is an I/O error). -/
structure ConnectEnv where
  addrParses : Bool
  connectOutcome : Except String TcpStreamModel
  setReadTimeoutOutcome : Option String
  setWriteTimeoutOutcome : Option String

/-- Mirrors `CncManager::connect` (cnc_comm.rs lines 260-278): any failure up
to and including the set-timeout calls propagates before the manager is
touched; on success the fresh stream and the device are stored and the `"?"`
wake-up command is sent with its result discarded, so the call returns `ok`
regardless of the handshake outcome. -/
def CncManager.connect (env : ConnectEnv) (m : CncManager) (device : CncDevice) :
    Except CncError Unit × CncManager :=
  if env.addrParses = false then
    (Except.error (CncError.addrParse (device.ip ++ ":" ++ toString device.port)), m)
  else
    match env.connectOutcome with
    | Except.error e => (Except.error (CncError.ioError e), m)
    | Except.ok stream =>
        match env.setReadTimeoutOutcome with
        | some e => (Except.error (CncError.ioError e), m)
        | none =>
            match env.setWriteTimeoutOutcome with
            | some e => (Except.error (CncError.ioError e), m)
            | none =>
                let m1 : CncManager :=
                  { current_connection := some stream, device_info := some device }
                (Except.ok (), (m1.send_command "?").2)

/-- Mirrors `CncManager::get_connection_status` (cnc_comm.rs lines 297-306). -/
def CncManager.get_connection_status (m : CncManager) : Option CncConnection :=
  match m.device_info with
  | some device => some { device := device, connected := m.current_connection.isSome }
  | none => none

/-- Mirrors `CncManager::disconnect` (cnc_comm.rs lines 309-312). -/
def CncManager.disconnect (_m : CncManager) : CncManager :=
  { current_connection := none, device_info := none }

/-- Mirrors `CncManager::jog` (cnc_comm.rs lines 315-318).  The `f32` distance
is represented by its Rust `Display` rendering (`5.0_f32` renders as `"5"`);
the floating-point value itself never enters the computation, only its printed
form does. -/
def CncManager.jog (m : CncManager) (axis : String) (distance : String)
    (feed_rate : Nat) : Except CncError String × CncManager :=
  m.send_command ("$J=G91" ++ axis ++ distance ++ "F" ++ toString feed_rate)

/-- Mirrors `CncManager::get_status` (cnc_comm.rs lines 321-323). -/
def CncManager.get_status (m : CncManager) : Except CncError String × CncManager :=
  m.send_command "?"

/-- Mirrors `CncManager::home` (cnc_comm.rs lines 326-328). -/
def CncManager.home (m : CncManager) : Except CncError String × CncManager :=
  m.send_command "$H"

/-- Mirrors `CncManager::reset` (cnc_comm.rs lines 331-333): sends the Ctrl-X
byte through `send_command`. -/
def CncManager.reset (m : CncManager) : Except CncError String × CncManager :=
  m.send_command "\x18"

/-- Mirrors `CncManager::set_work_zero` (cnc_comm.rs lines 336-339). -/
def CncManager.set_work_zero (m : CncManager) (axes : String) :
    Except CncError String × CncManager :=
  m.send_command ("G10L20P1" ++ axes)

/-- Manager states reachable from `CncManager.new` by any sequence of
`connect`, `disconnect` and `send_command` calls, under any environments. -/
inductive Reachable : CncManager → Prop where
  | new : Reachable CncManager.new
  | connect (env : ConnectEnv) (d : CncDevice) {m : CncManager} :
      Reachable m → Reachable (CncManager.connect env m d).2
  | disconnect {m : CncManager} :
      Reachable m → Reachable (CncManager.disconnect m)
  | send (c : String) {m : CncManager} :
      Reachable m → Reachable (m.send_command c).2

theorem lem_send_preserves (m : CncManager) (c : String) :
    (m.send_command c).2.current_connection.isSome = m.current_connection.isSome ∧
    (m.send_command c).2.device_info = m.device_info := by
  cases hm : m.current_connection with
  | none => simp [CncManager.send_command, hm]
  | some stream =>
      cases hw : (stream.writeAll (c ++ "\n")).1 with
      | error e => simp [CncManager.send_command, hm, hw]
      | ok u =>
          cases hr : ((stream.writeAll (c ++ "\n")).2.readOnce).1 with
          | error e => simp [CncManager.send_command, hm, hw, hr]
          | ok r => simp [CncManager.send_command, hm, hw, hr]

theorem lem_send_disconnected (m : CncManager) (c : String)
    (hm : m.current_connection = none) :
    (m.send_command c).1 = Except.error CncError.notConnected := by
  simp [CncManager.send_command, hm]

theorem lem_send_connected_io (m : CncManager) (s : TcpStreamModel) (c : String)
    (hm : m.current_connection = some s) (e : CncError)
    (he : (m.send_command c).1 = Except.error e) :
    ∃ msg, e = CncError.ioError msg := by
  cases hw : (s.writeAll (c ++ "\n")).1 with
  | error msg =>
      simp [CncManager.send_command, hm, hw] at he
      exact ⟨msg, he.symm⟩
  | ok u =>
      cases hr : ((s.writeAll (c ++ "\n")).2.readOnce).1 with
      | error msg =>
          simp [CncManager.send_command, hm, hw, hr] at he
          exact ⟨msg, he.symm⟩
      | ok r => simp [CncManager.send_command, hm, hw, hr] at he

theorem lem_send_written (m : CncManager) (s : TcpStreamModel) (c : String)
    (hm : m.current_connection = some s) (hw : s.writeOutcomes = []) :
    ∃ s', (m.send_command c).2.current_connection = some s' ∧
      s'.written = s.written ++ [c ++ "\n"] := by
  cases hro : s.readOutcomes with
  | nil =>
      refine ⟨{ s with written := s.written ++ [c ++ "\n"] }, ?_, rfl⟩
      simp [CncManager.send_command, hm, TcpStreamModel.writeAll, hw,
        TcpStreamModel.readOnce, hro]
  | cons o rest =>
      cases o with
      | error e =>
          refine ⟨{ s with written := s.written ++ [c ++ "\n"], readOutcomes := rest }, ?_, rfl⟩
          simp [CncManager.send_command, hm, TcpStreamModel.writeAll, hw,
            TcpStreamModel.readOnce, hro]
      | ok r =>
          refine ⟨{ s with written := s.written ++ [c ++ "\n"], readOutcomes := rest }, ?_, rfl⟩
          simp [CncManager.send_command, hm, TcpStreamModel.writeAll, hw,
            TcpStreamModel.readOnce, hro]

theorem lem_connect_err (env : ConnectEnv) (m : CncManager) (d : CncDevice)
    (e : CncError) (h : (CncManager.connect env m d).1 = Except.error e) :
    (CncManager.connect env m d).2 = m := by
  cases hap : env.addrParses with
  | false => simp [CncManager.connect, hap]
  | true =>
      cases hc : env.connectOutcome with
      | error e' => simp [CncManager.connect, hap, hc]
      | ok stream =>
          cases hr : env.setReadTimeoutOutcome with
          | some e' => simp [CncManager.connect, hap, hc, hr]
          | none =>
              cases hw : env.setWriteTimeoutOutcome with
              | some e' => simp [CncManager.connect, hap, hc, hr, hw]
              | none => simp [CncManager.connect, hap, hc, hr, hw] at h

theorem lem_connect_ok (env : ConnectEnv) (m : CncManager) (d : CncDevice)
    (stream : TcpStreamModel) (hp : env.addrParses = true)
    (hc : env.connectOutcome = Except.ok stream)
    (hr : env.setReadTimeoutOutcome = none)
    (hw : env.setWriteTimeoutOutcome = none) :
    (CncManager.connect env m d).1 = Except.ok () ∧
    (CncManager.connect env m d).2 =
      (CncManager.send_command
        { current_connection := some stream, device_info := some d } "?").2 := by
  simp [CncManager.connect, hp, hc, hr, hw]

theorem lem_reachable_inv {m : CncManager} (h : Reachable m) :
    m.current_connection.isSome = m.device_info.isSome := by
  induction h with
  | new => rfl
  | @connect env d m hm ih =>
      cases hap : env.addrParses with
      | false => simpa [CncManager.connect, hap] using ih
      | true =>
          cases hc : env.connectOutcome with
          | error e => simpa [CncManager.connect, hap, hc] using ih
          | ok stream =>
              cases hr : env.setReadTimeoutOutcome with
              | some e => simpa [CncManager.connect, hap, hc, hr] using ih
              | none =>
                  cases hw : env.setWriteTimeoutOutcome with
                  | some e => simpa [CncManager.connect, hap, hc, hr, hw] using ih
                  | none =>
                      have hp := lem_send_preserves
                        { current_connection := some stream, device_info := some d } "?"
                      simp [CncManager.connect, hap, hc, hr, hw, hp.1, hp.2]
  | disconnect hm ih => rfl
  | @send c m hm ih =>
      have hp := lem_send_preserves m c
      rw [hp.1, hp.2, ih]

/-- Probe environment of a healthy controller replying with an Idle status. -/
def probeEnvIdle : ProbeEnv :=
  { addrParses := true, connectOutcome := Except.ok (), setReadTimeoutOk := true,
    setWriteTimeoutOk := true, firstRead := Except.ok "<Idle|MPos:0,0,0>",
    secondRead := Except.error "read timed out" }

/-- Probe environment of a peer that answers with non-controller text. -/
def probeEnvChat : ProbeEnv :=
  { addrParses := true, connectOutcome := Except.ok (), setReadTimeoutOk := true,
    setWriteTimeoutOk := true, firstRead := Except.ok "hello",
    secondRead := Except.error "read timed out" }

/-- Probe environment of an unreachable host: the TCP connect fails. -/
def probeEnvDown : ProbeEnv :=
  { addrParses := true, connectOutcome := Except.error "connection refused",
    setReadTimeoutOk := true, setWriteTimeoutOk := true,
    firstRead := Except.error "unreachable", secondRead := Except.error "unreachable" }

/-- A freshly connected stream with one pending successful reply. -/
def streamC : TcpStreamModel :=
  { written := [], writeOutcomes := [], readOutcomes := [Except.ok "ok"] }

/-- The device the direct-connection path reports. -/
def deviceC : CncDevice :=
  { name := "Genmitsu CNC (Direct)", ip := "192.168.86.23", port := 10086,
    mac := none, firmware := none }

/-- A manager currently connected to `deviceC` through `streamC`. -/
def mgrC : CncManager :=
  { current_connection := some streamC, device_info := some deviceC }

/-- C3: for every reply string read by the probe (the connection and timeout
setup having succeeded), a reply containing one of the markers `Idle`,
`Alarm`, `Run`, `MPos`, `VER:` makes `probe_device` return a device whose ip
and port equal the probed address and port, and a reply containing none of
them makes it return the not-a-CNC error carrying the raw reply. -/
theorem c3_probe_classification (env : ProbeEnv) (ip : String) (port : Nat)
    (r : String) (hp : env.addrParses = true)
    (hc : env.connectOutcome = Except.ok ())
    (hrt : env.setReadTimeoutOk = true) (hwt : env.setWriteTimeoutOk = true)
    (hread : env.firstRead = Except.ok r) :
    (hasMarker r = true →
      ∃ d, probe_device env ip port = Except.ok d ∧ d.ip = ip ∧ d.port = port) ∧
    (hasMarker r = false →
      probe_device env ip port = Except.error (CncError.notACnc r)) := by
  constructor
  · intro hmark
    refine ⟨{ name := "CNC at " ++ ip, ip := ip, port := port, mac := none,
              firmware := if strContains r "VER:" = true then
                  (match env.secondRead with
                   | Except.ok s => extract_firmware_info s
                   | Except.error _ => none)
                else none }, ?_, rfl, rfl⟩
    simp [probe_device, hp, hc, hrt, hwt, hread, hmark]
  · intro hmark
    simp [probe_device, hp, hc, hrt, hwt, hread, hmark]

/-- Witness for C3: the Idle reply is classified as a device at the probed
address, and the reply `"hello"` is rejected carrying the raw text. -/
theorem c3_probe_classification_witness :
    (∃ d, probe_device probeEnvIdle "192.168.1.50" 10086 = Except.ok d ∧
       d.ip = "192.168.1.50" ∧ d.port = 10086) ∧
    probe_device probeEnvChat "192.168.1.50" 10086 =
      Except.error (CncError.notACnc "hello") :=
  ⟨(c3_probe_classification probeEnvIdle "192.168.1.50" 10086 "<Idle|MPos:0,0,0>"
      rfl rfl rfl rfl rfl).1 (by decide),
   (c3_probe_classification probeEnvChat "192.168.1.50" 10086 "hello"
      rfl rfl rfl rfl rfl).2 (by decide)⟩

/-- C4: `send_command` returns the `notConnected` error exactly when there is
no current connection, and with a connection present every failure it returns
is an I/O error. -/
theorem c4_not_connected_iff (m : CncManager) (c : String) :
    ((m.send_command c).1 = Except.error CncError.notConnected ↔
      m.current_connection = none) ∧
    (∀ s, m.current_connection = some s → ∀ e,
      (m.send_command c).1 = Except.error e → ∃ msg, e = CncError.ioError msg) := by
  constructor
  · constructor
    · intro h
      cases hm : m.current_connection with
      | none => rfl
      | some s =>
          rcases lem_send_connected_io m s c hm _ h with ⟨msg, hmsg⟩
          simp at hmsg
    · intro h
      exact lem_send_disconnected m c h
  · intro s hs e he
    exact lem_send_connected_io m s c hs e he

/-- Witness for C4: the fresh manager is disconnected, and `send_command`
fails there with `notConnected`. -/
theorem c4_not_connected_iff_witness :
    (CncManager.new.send_command "?").1 = Except.error CncError.notConnected :=
  (c4_not_connected_iff CncManager.new "?").1.mpr rfl

/-- C5 counterexample: on a connected manager, `reset` puts the two bytes
`0x18` and `'\n'` on the wire (`send_command` appends the newline), not the
single byte `0x18` alone. -/
theorem c5_counterexample :
    ∃ s', (CncManager.reset mgrC).2.current_connection = some s' ∧
      s'.written = ["\x18\n"] ∧ (["\x18\n"] : List String) ≠ ["\x18"] ∧
      ("\x18\n" : String).length = 2 := by
  refine ⟨{ streamC with written := ["\x18\n"], readOutcomes := [] }, rfl, rfl,
    by decide, rfl⟩

/-- C5 (amended): when the manager is connected, `reset` writes exactly the
two-byte payload `0x18` followed by the newline terminator that
`send_command` appends to every command. -/
theorem c5_reset_bytes (m : CncManager) (s : TcpStreamModel)
    (hm : m.current_connection = some s) (hw : s.writeOutcomes = []) :
    ∃ s', (CncManager.reset m).2.current_connection = some s' ∧
      s'.written = s.written ++ ["\x18\n"] :=
  lem_send_written m s "\x18" hm hw

/-- Witness for C5 (amended) on the concrete connected manager `mgrC`. -/
theorem c5_reset_bytes_witness :
    ∃ s', (CncManager.reset mgrC).2.current_connection = some s' ∧
      s'.written = [] ++ ["\x18\n"] :=
  c5_reset_bytes mgrC streamC rfl rfl

/-- C6: for every axis string, rendered distance and feed rate, `jog` on a
connected manager writes exactly the concatenation
`"$J=G91" ++ axis ++ distance ++ "F" ++ feedRate` terminated by a newline. -/
theorem c6_jog_command (m : CncManager) (s : TcpStreamModel)
    (axis distance : String) (feed_rate : Nat)
    (hm : m.current_connection = some s) (hw : s.writeOutcomes = []) :
    ∃ s', (m.jog axis distance feed_rate).2.current_connection = some s' ∧
      s'.written = s.written ++
        ["$J=G91" ++ axis ++ distance ++ "F" ++ toString feed_rate ++ "\n"] :=
  lem_send_written m s ("$J=G91" ++ axis ++ distance ++ "F" ++ toString feed_rate) hm hw

/-- Witness for C6: `jog "X" 5.0 500` (the distance `5.0_f32` renders as
`"5"`) writes exactly the bytes of `"$J=G91X5F500\n"` on the wire. -/
theorem c6_jog_command_witness :
    ∃ s', (mgrC.jog "X" "5" 500).2.current_connection = some s' ∧
      s'.written = ["$J=G91X5F500\n"] := by
  obtain ⟨s', h1, h2⟩ := c6_jog_command mgrC streamC "X" "5" 500 rfl rfl
  exact ⟨s', h1, h2.trans rfl⟩

/-- C7: `discover_devices` never returns an error: whatever the direct probe
and the UDP fallback produce, the result is `ok` with a (possibly empty)
device list. -/
theorem c7_discover_total (env : DiscoverEnv) :
    ∃ devices, (discover_devices env).1 = Except.ok devices := by
  cases hp : probe_device env.directProbeEnv "192.168.86.23" 10086 with
  | ok d =>
      refine ⟨[{ d with name := "Genmitsu CNC (Direct)" }], ?_⟩
      simp [discover_devices, hp]
  | error e =>
      cases hu : udp_discovery_fallback env.udpEnv with
      | ok ds =>
          refine ⟨ds, ?_⟩
          simp [discover_devices, hp, hu]
      | error e' =>
          refine ⟨[], ?_⟩
          simp [discover_devices, hp, hu]

/-- The announcement of the scenario in the spec, with a numeric port and the
identifier under the key `mac`. -/
def shopJson : Json :=
  Json.obj [("ip", Json.str "192.168.1.50"), ("port", Json.num 10086),
            ("name", Json.str "Shop CNC"), ("mac", Json.str "AA:BB:CC")]

/-- The same announcement with the port as a numeric string and the
identifier under the key `uuid`. -/
def strPortJson : Json :=
  Json.obj [("ip", Json.str "192.168.1.50"), ("port", Json.str "10086"),
            ("name", Json.str "Shop CNC"), ("uuid", Json.str "AA:BB:CC")]

/-- An announcement with a numeric port but the identifier under `uuid`. -/
def uuidJson : Json :=
  Json.obj [("ip", Json.str "192.168.1.50"), ("port", Json.num 10086),
            ("name", Json.str "Shop CNC"), ("uuid", Json.str "AA:BB:CC")]

/-- A UDP environment delivering one verifiable announcement. -/
def udpEnvOne : UdpEnv :=
  { localIpOutcome := Except.ok "192.168.1.10", bindOutcome := none,
    setTimeoutOutcome := none,
    events := [RecvEvent.jsonDatagram shopJson probeEnvIdle] }

/-- Discovery environment: the fixed direct address is down, while multicast
traffic announces a healthy device. -/
def discoverEnvA : DiscoverEnv :=
  { directProbeEnv := probeEnvDown, udpEnv := udpEnvOne }

/-- Discovery environment: the fixed direct address answers as a controller. -/
def discoverEnvB : DiscoverEnv :=
  { directProbeEnv := probeEnvIdle, udpEnv := udpEnvOne }

/-- C1 counterexample: in a call where the UDP/multicast strategy yields a
verified device, the fixed fallback address is probed anyway — and probed
first — contradicting the claimed multicast-first order. -/
theorem c1_counterexample :
    (discover_devices discoverEnvA).1 =
      Except.ok [{ name := "Shop CNC", ip := "192.168.1.50", port := 10086,
                   mac := some "AA:BB:CC", firmware := none }] ∧
    (discover_devices discoverEnvA).2 =
      [DiscEvent.probeDirect, DiscEvent.udpDiscovery] :=
  ⟨rfl, rfl⟩

/-- C1 (amended): `discover_devices` probes the known fixed address first in
every call; the UDP broadcast discovery runs exactly when that direct probe
fails, and is never attempted when the direct probe succeeds. -/
theorem c1_direct_first (env : DiscoverEnv) :
    (discover_devices env).2.head? = some DiscEvent.probeDirect ∧
    ((∃ d, probe_device env.directProbeEnv "192.168.86.23" 10086 = Except.ok d) →
      (discover_devices env).2 = [DiscEvent.probeDirect]) ∧
    ((∃ e, probe_device env.directProbeEnv "192.168.86.23" 10086 = Except.error e) →
      (discover_devices env).2 =
        [DiscEvent.probeDirect, DiscEvent.udpDiscovery]) := by
  cases hp : probe_device env.directProbeEnv "192.168.86.23" 10086 with
  | ok d =>
      refine ⟨by simp [discover_devices, hp], fun _ => by simp [discover_devices, hp], ?_⟩
      rintro ⟨e, he⟩
      exact Except.noConfusion he
  | error e =>
      cases hu : udp_discovery_fallback env.udpEnv with
      | ok ds =>
          refine ⟨by simp [discover_devices, hp, hu], ?_,
            fun _ => by simp [discover_devices, hp, hu]⟩
          rintro ⟨d, hd⟩
          exact Except.noConfusion hd
      | error e' =>
          refine ⟨by simp [discover_devices, hp, hu], ?_,
            fun _ => by simp [discover_devices, hp, hu]⟩
          rintro ⟨d, hd⟩
          exact Except.noConfusion hd

/-- Witness for C1 (amended): when the direct probe succeeds, the trace is the
single direct probe and UDP discovery never runs. -/
theorem c1_direct_first_witness :
    (discover_devices discoverEnvB).2 = [DiscEvent.probeDirect] :=
  (c1_direct_first discoverEnvB).2.1 ⟨_, rfl⟩

/-- C2 counterexample: an announcement whose port is the numeric string
`"10086"` is rejected outright — the whole datagram is discarded instead of
falling back to port 10086 — and an identifier under the key `uuid` is
dropped (`mac = none`) rather than accepted, so the claimed lenient decode
fails on both counts. -/
theorem c2_counterexample :
    decodeBroadcast strPortJson = Except.error "invalid type for field port" ∧
    processEvents [RecvEvent.jsonDatagram strPortJson probeEnvIdle] = [] ∧
    decodeBroadcast uuidJson =
      Except.ok { ip := "192.168.1.50", port := 10086, name := "Shop CNC",
                  mac := none } :=
  ⟨rfl, rfl, rfl⟩

/-- C2 (amended): the broadcast decode is strict: a string-valued port is a
type error that discards the whole announcement (no default to 10086), the
identifier is read only from the key `mac` (a `uuid` key is ignored, leaving
the identifier absent), and an announcement with a numeric in-range port still
produces a candidate. -/
theorem c2_strict_decode (ip name pstr u : String) (n : Int)
    (hn : 0 ≤ n ∧ n < 65536) :
    decodeBroadcast (Json.obj
        [("ip", Json.str ip), ("port", Json.str pstr), ("name", Json.str name)]) =
      Except.error "invalid type for field port" ∧
    decodeBroadcast (Json.obj
        [("ip", Json.str ip), ("port", Json.num n), ("name", Json.str name),
         ("uuid", Json.str u)]) =
      Except.ok { ip := ip, port := n.toNat, name := name, mac := none } := by
  constructor
  · rfl
  · have h1 : decodeBroadcast (Json.obj
        [("ip", Json.str ip), ("port", Json.num n), ("name", Json.str name),
         ("uuid", Json.str u)]) =
        (if 0 ≤ n ∧ n < 65536 then
          Except.ok { ip := ip, port := n.toNat, name := name, mac := none }
        else Except.error "invalid value for field port: out of range of u16") := rfl
    rw [h1, if_pos hn]

/-- Witness for C2 (amended) at the concrete announcement of the spec's
scenario. -/
theorem c2_strict_decode_witness :
    decodeBroadcast (Json.obj
        [("ip", Json.str "192.168.1.50"), ("port", Json.str "10086"),
         ("name", Json.str "Shop CNC")]) =
      Except.error "invalid type for field port" ∧
    decodeBroadcast (Json.obj
        [("ip", Json.str "192.168.1.50"), ("port", Json.num 10086),
         ("name", Json.str "Shop CNC"), ("uuid", Json.str "AA:BB:CC")]) =
      Except.ok { ip := "192.168.1.50", port := 10086, name := "Shop CNC",
                  mac := none } := by
  have h := c2_strict_decode "192.168.1.50" "Shop CNC" "10086" "AA:BB:CC" 10086
    (by decide)
  exact ⟨h.1, h.2.trans rfl⟩

/-- A connect environment whose TCP connect times out. -/
def connectEnvFail : ConnectEnv :=
  { addrParses := true, connectOutcome := Except.error "connection timed out",
    setReadTimeoutOutcome := none, setWriteTimeoutOutcome := none }

/-- A fresh stream whose handshake write will fail. -/
def streamHs : TcpStreamModel :=
  { written := [], writeOutcomes := [some "connection reset"], readOutcomes := [] }

/-- The device of the spec scenario, used as a connect target. -/
def deviceNew : CncDevice :=
  { name := "Shop CNC", ip := "192.168.1.50", port := 10086, mac := none,
    firmware := none }

/-- A connect environment that opens `streamHs` successfully. -/
def connectEnvOk : ConnectEnv :=
  { addrParses := true, connectOutcome := Except.ok streamHs,
    setReadTimeoutOutcome := none, setWriteTimeoutOutcome := none }

/-- C8: when `connect` fails (address parse failure, connect failure, or a
set-timeout failure), the manager is left exactly as it was — in particular,
called from the fresh disconnected state it stays disconnected with no
connection and no device stored. -/
theorem c8_connect_failure_preserves (env : ConnectEnv) (m : CncManager)
    (d : CncDevice) (e : CncError)
    (h : (CncManager.connect env m d).1 = Except.error e) :
    (CncManager.connect env m d).2 = m :=
  lem_connect_err env m d e h

/-- Witness for C8: a timed-out connect from the fresh manager leaves it equal
to `CncManager.new` (no connection, no device binding). -/
theorem c8_connect_failure_preserves_witness :
    (CncManager.connect connectEnvFail CncManager.new deviceNew).2 =
      CncManager.new :=
  c8_connect_failure_preserves connectEnvFail CncManager.new deviceNew
    (CncError.ioError "connection timed out") rfl

/-- C9: in every manager state reachable from `new` by `connect`, `disconnect`
and `send_command`, the connection and the device binding are `some` together;
hence `get_connection_status` is `none` exactly when there is no current
connection, and every returned status has `connected = true`. -/
theorem c9_connection_invariant (m : CncManager) (h : Reachable m) :
    m.current_connection.isSome = m.device_info.isSome ∧
    (m.get_connection_status = none ↔ m.current_connection = none) ∧
    (∀ conn, m.get_connection_status = some conn → conn.connected = true) := by
  have hinv := lem_reachable_inv h
  refine ⟨hinv, ⟨?_, ?_⟩, ?_⟩
  · intro hnone
    cases hc : m.current_connection with
    | none => rfl
    | some s =>
        cases hd : m.device_info with
        | some d => simp [CncManager.get_connection_status, hd] at hnone
        | none => rw [hc, hd] at hinv; simp at hinv
  · intro hcnone
    cases hd : m.device_info with
    | none => simp [CncManager.get_connection_status, hd]
    | some d => rw [hcnone, hd] at hinv; simp at hinv
  · intro conn hconn
    cases hd : m.device_info with
    | none => simp [CncManager.get_connection_status, hd] at hconn
    | some d =>
        cases hc : m.current_connection with
        | none => rw [hc, hd] at hinv; simp at hinv
        | some s =>
            simp [CncManager.get_connection_status, hd, hc] at hconn
            rw [← hconn]

/-- Witness for C9 at the reachable fresh state: no status is reported exactly
because there is no connection. -/
theorem c9_connection_invariant_witness :
    CncManager.new.get_connection_status = none ↔
      CncManager.new.current_connection = none :=
  (c9_connection_invariant CncManager.new Reachable.new).2.1

/-- C10: `connect` does not require the disconnected state: from any manager
state, once the socket opens and its timeouts are set, the call returns `ok`,
stores the new device, and replaces the connection by the fresh stream (as
left by the discarded `"?"` handshake) — even when that handshake write or
read fails. -/
theorem c10_connect_replaces (env : ConnectEnv) (m : CncManager)
    (d : CncDevice) (stream : TcpStreamModel) (hp : env.addrParses = true)
    (hc : env.connectOutcome = Except.ok stream)
    (hr : env.setReadTimeoutOutcome = none)
    (hw : env.setWriteTimeoutOutcome = none) :
    (CncManager.connect env m d).1 = Except.ok () ∧
    (CncManager.connect env m d).2 =
      (CncManager.send_command
        { current_connection := some stream, device_info := some d } "?").2 ∧
    (CncManager.connect env m d).2.device_info = some d ∧
    (CncManager.connect env m d).2.current_connection.isSome = true := by
  obtain ⟨h1, h2⟩ := lem_connect_ok env m d stream hp hc hr hw
  have hp2 := lem_send_preserves
    { current_connection := some stream, device_info := some d } "?"
  refine ⟨h1, h2, ?_, ?_⟩
  · rw [h2]; exact hp2.2
  · rw [h2, hp2.1]; rfl

/-- Witness for C10: connecting while already connected to `deviceC`, with a
handshake whose write fails, still returns `ok` and rebinds to the new
device. -/
theorem c10_connect_replaces_witness :
    (CncManager.connect connectEnvOk mgrC deviceNew).1 = Except.ok () ∧
    (CncManager.connect connectEnvOk mgrC deviceNew).2.device_info =
      some deviceNew :=
  ⟨(c10_connect_replaces connectEnvOk mgrC deviceNew streamHs rfl rfl rfl rfl).1,
   (c10_connect_replaces connectEnvOk mgrC deviceNew streamHs rfl rfl rfl rfl).2.2.1⟩

end CncComm
